import Mathlib

/-
Shallow embedding of the task-dependency scheduler and concurrent execution
coordinator in multi-auggie-orchestrator.py (class MultiAuggieOrchestrator).

The Python dictionaries self.tasks / self.agents (keyed by id, insertion
ordered) are embedded as lists in insertion order; dictionary lookup by key
becomes List.find? on the id field.  Mutation of task/agent objects becomes
explicit state passing on OrchState.  The external worker boundary, the
merge-back boundary and asyncio cancellation are modelled by an explicit
outcome parameter (ExecOutcome) describing how one execution attempt ends;
everything else is translated directly from the source.
-/

namespace Orch

/-- TaskStatus enum (multi-auggie-orchestrator.py lines 20-26). -/
inductive TaskStatus where
  | pending
  | assigned
  | in_progress
  | completed
  | failed
  | blocked
deriving DecidableEq

/-- Task dataclass (lines 28-39).  All fields of the source are kept. -/
structure Task where
  id : String
  description : String
  component : String
  files : List String
  dependencies : List String
  parallel_safe : Bool
  estimated_effort : Nat
  status : TaskStatus
  assigned_agent : Option String
  output_path : Option String
deriving DecidableEq

/-- AuggieAgent dataclass (lines 41-48).  The working_dir field is an opaque
workspace handle (a path built as project_root / "work-<id>"); only its use in
output_path is reflected, via the agent id. -/
structure AuggieAgent where
  id : String
  name : String
  specialization : String
  status : String
  current_task : Option String
deriving DecidableEq

/-- The orchestrator's mutable state: self.tasks and self.agents, each a dict
keyed by id, embedded as insertion-ordered lists (lines 54-55). -/
structure OrchState where
  tasks : List Task
  agents : List AuggieAgent
deriving DecidableEq

/-- Replace the task with the given id (mutation of one entry of self.tasks). -/
def updateTask (ts : List Task) (tid : String) (f : Task → Task) : List Task :=
  ts.map (fun t => if t.id = tid then f t else t)

/-- Replace the agent with the given id (mutation of one entry of self.agents). -/
def updateAgent (ags : List AuggieAgent) (aid : String)
    (f : AuggieAgent → AuggieAgent) : List AuggieAgent :=
  ags.map (fun a => if a.id = aid then f a else a)

/-- Python's str.lower(), character by character (the strings the scheduler
compares are ASCII tags). -/
def strLower (s : String) : String :=
  String.mk (s.toList.map Char.toLower)

/-- Python's substring test `needle in haystack`. -/
def strIn (needle haystack : String) : Bool :=
  (List.range (haystack.toList.length + 1)).any
    (fun i => needle.toList.isPrefixOf (haystack.toList.drop i))

/-- Scoring of one agent against a task (lines 169-173): +10 when
`agent.specialization in task.component.lower()`, +5 when
`agent.specialization in task.description.lower()`.  Note that only the
task-side strings are lowercased in the source. -/
def scoreAgent (agent : AuggieAgent) (task : Task) : Nat :=
  (if strIn agent.specialization (strLower task.component) then 10 else 0) +
  (if strIn agent.specialization (strLower task.description) then 5 else 0)

/-- Lines 176-178: `scored_agents.sort(key=lambda x: x[0], reverse=True)`
followed by taking element 0.  Python's sort is stable, so the head of the
stably descending-sorted list is the first element of the original list that
attains the maximal score; the fold below keeps the current best and replaces
it only on a strictly larger score, which computes exactly that element. -/
def pickBest (task : Task) (a : AuggieAgent) (rest : List AuggieAgent) : AuggieAgent :=
  rest.foldl (fun best x => if scoreAgent best task < scoreAgent x task then x else best) a

/-- _find_best_agent_for_task (lines 159-178): filter idle agents, return none
when there are none, otherwise the first maximal-score idle agent. -/
def findBestAgentForTask (agents : List AuggieAgent) (task : Task) : Option AuggieAgent :=
  match agents.filter (fun a => a.status = "idle") with
  | [] => none
  | a :: rest => some (pickBest task a rest)

/-- First loop of _can_assign_task (lines 182-187): a dependency id that is a
key of self.tasks must map to a completed task; an id absent from the dict is
skipped by the `if dep_id in self.tasks` guard. -/
def depsOkCode (ts : List Task) (t : Task) : Bool :=
  t.dependencies.all fun dep =>
    match ts.find? (fun u => decide (u.id = dep)) with
    | some u => decide (u.status = TaskStatus.completed)
    | none => true

/-- Second loop of _can_assign_task (lines 189-195): a non-parallel-safe task
is refused when some other task is in_progress with an intersecting file set. -/
def noConflict (ts : List Task) (t : Task) : Bool :=
  t.parallel_safe ||
    ts.all fun other =>
      ! (decide (other.status = TaskStatus.in_progress) &&
         decide (other.id ≠ t.id) &&
         t.files.any (fun f => other.files.contains f))

/-- _can_assign_task (lines 180-197). -/
def canAssignTask (ts : List Task) (t : Task) : Bool :=
  depsOkCode ts t && noConflict ts t

/-- One iteration of the loop body of assign_tasks (lines 151-157): look the
task up in the current state, find the best agent, and when _can_assign_task
agrees set task.status = ASSIGNED, task.assigned_agent = agent.id and
agent.current_task = task.id.  The agent's status field is not touched by the
source. -/
def assignOne (s : OrchState) (tid : String) : OrchState :=
  match s.tasks.find? (fun t => decide (t.id = tid)) with
  | none => s
  | some task =>
    match findBestAgentForTask s.agents task with
    | none => s
    | some best =>
      if canAssignTask s.tasks task then
        { tasks := updateTask s.tasks tid
            (fun t => { t with status := TaskStatus.assigned,
                               assigned_agent := some best.id }),
          agents := updateAgent s.agents best.id
            (fun a => { a with current_task := some tid }) }
      else s

/-- assign_tasks (lines 146-157): snapshot the pending tasks, then run the
loop body for each of them in order, threading the mutated state. -/
def assignTasks (s : OrchState) : OrchState :=
  ((s.tasks.filter (fun t => decide (t.status = TaskStatus.pending))).map
    (fun t => t.id)).foldl assignOne s

/-- How one execution attempt of execute_task ends.  success: the worker
returns code 0 and the merge-back succeeds.  workerFailure: the worker returns
a non-zero code.  workerRaises: the worker boundary (or anything else in the
try block before the merge) raises an Exception.  mergeRaises: the worker
returns 0 but _merge_task_results raises an Exception.  cancelled: the
coroutine is cancelled at its await point (asyncio.CancelledError derives from
BaseException, so the `except Exception` handler at line 226 does not catch
it; only the finally block runs and no value is returned). -/
inductive ExecOutcome where
  | success
  | workerFailure
  | workerRaises
  | mergeRaises
  | cancelled
deriving DecidableEq

/-- The effect of the body of execute_task on the task, after the task was
already set to IN_PROGRESS (lines 213-229).  The output_path string mirrors
str(agent.working_dir / "output") with working_dir = project_root /
"work-<agent id>".  On mergeRaises the task was first set to COMPLETED with
its output path recorded and then overwritten to FAILED by the except
handler. -/
def execOutcomeTask (aid : String) (t : Task) (outcome : ExecOutcome) : Task :=
  match outcome with
  | ExecOutcome.success =>
      { t with status := TaskStatus.completed,
               output_path := some ("work-" ++ aid ++ "/output") }
  | ExecOutcome.workerFailure => { t with status := TaskStatus.failed }
  | ExecOutcome.workerRaises => { t with status := TaskStatus.failed }
  | ExecOutcome.mergeRaises =>
      { t with status := TaskStatus.failed,
               output_path := some ("work-" ++ aid ++ "/output") }
  | ExecOutcome.cancelled => t

/-- The value returned by execute_task: True on the success path, False on the
failure and except paths, and none when the coroutine was cancelled and never
returned (lines 220, 224, 229). -/
def execRet (outcome : ExecOutcome) : Option Bool :=
  match outcome with
  | ExecOutcome.success => some true
  | ExecOutcome.workerFailure => some false
  | ExecOutcome.workerRaises => some false
  | ExecOutcome.mergeRaises => some false
  | ExecOutcome.cancelled => none

/-- Whether control reached the _merge_task_results call (line 219): exactly
when the worker signalled returncode 0. -/
def execMerge (outcome : ExecOutcome) : Bool :=
  match outcome with
  | ExecOutcome.success => true
  | ExecOutcome.mergeRaises => true
  | ExecOutcome.workerFailure => false
  | ExecOutcome.workerRaises => false
  | ExecOutcome.cancelled => false

/-- Result of one execute_task attempt: final agent and task, the returned
value (none when nothing was returned), and whether merge-back was invoked. -/
structure ExecResult where
  agent : AuggieAgent
  task : Task
  ret : Option Bool
  mergeInvoked : Bool

/-- execute_task (lines 199-232): set task IN_PROGRESS and agent working
(lines 203-204), run the worker and handle the outcome, and in the finally
block (lines 230-232) unconditionally reset agent.status = "idle" and
agent.current_task = None. -/
def executeTask (agent : AuggieAgent) (task : Task) (outcome : ExecOutcome) :
    ExecResult :=
  let t1 := { task with status := TaskStatus.in_progress }
  let a1 := { agent with status := "working" }
  { agent := { a1 with status := "idle", current_task := none },
    task := execOutcomeTask agent.id t1 outcome,
    ret := execRet outcome,
    mergeInvoked := execMerge outcome }

/-- The (agent id, task id) pairs launched by the execute phase of orchestrate
(lines 293-298): every agent whose current_task is set and refers to a task
with status ASSIGNED.  The dictionary lookup self.tasks[agent.current_task]
cannot fail for ids produced by assign_tasks; a missing id is modelled as a
skip. -/
def collectActive (s : OrchState) : List (String × String) :=
  s.agents.filterMap fun a =>
    match a.current_task with
    | none => none
    | some tid =>
      match s.tasks.find? (fun t => decide (t.id = tid)) with
      | none => none
      | some t =>
        if t.status = TaskStatus.assigned then some (a.id, tid) else none

/-- The synchronous prefix of execute_task that every launched coroutine runs
before suspending at the worker await (lines 203-204), applied to the shared
state: the task becomes IN_PROGRESS and the agent working.  Under asyncio all
launched coroutines run this prefix before any of them can complete. -/
def launchPair (s : OrchState) (p : String × String) : OrchState :=
  { tasks := updateTask s.tasks p.2
      (fun t => { t with status := TaskStatus.in_progress }),
    agents := updateAgent s.agents p.1
      (fun a => { a with status := "working" }) }

/-- The remainder of execute_task after the worker await, applied to the
shared state when the execution settles with the given outcome: the task is
updated per the outcome and the finally block frees the agent. -/
def finishPair (s : OrchState) (p : String × String) (outcome : ExecOutcome) :
    OrchState :=
  { tasks := updateTask s.tasks p.2 (fun t => execOutcomeTask p.1 t outcome),
    agents := updateAgent s.agents p.1
      (fun a => { a with status := "idle", current_task := none }) }

/-- assign phase followed by the launch of every active pair: the state
observable while the launched executions are suspended at the worker
boundary. -/
def afterLaunch (s : OrchState) : OrchState :=
  (collectActive (assignTasks s)).foldl launchPair (assignTasks s)

/-- Tasks whose status is outside {COMPLETED, FAILED} (lines 309-310). -/
def remainingTasks (s : OrchState) : List Task :=
  s.tasks.filter fun t =>
    ! (decide (t.status = TaskStatus.completed) ||
       decide (t.status = TaskStatus.failed))

/-- One iteration of the orchestrate loop (lines 288-317): assign, launch the
active pairs, settle each launched execution with its outcome (the first
completion plus the cancellations delivered to the rest; cancellation is the
cancelled outcome), then test the only exit condition of the loop: no
remaining tasks.  The second component is true exactly when the loop breaks
(line 312-314); the source has no other exit and never reports a blocked
condition. -/
def orchRound (s : OrchState) (outcomes : List ExecOutcome) : OrchState × Bool :=
  let s1 := assignTasks s
  let pairs := collectActive s1
  let s2 := pairs.foldl launchPair s1
  let s3 := (pairs.zip outcomes).foldl (fun st pr => finishPair st pr.1 pr.2) s2
  (s3, decide (remainingTasks s3 = []))

/-- Iterating the orchestrate loop for a given schedule of outcomes. -/
def runRounds (s : OrchState) (f : Nat → List ExecOutcome) : Nat → OrchState
  | 0 => s
  | n + 1 => (orchRound (runRounds s f n) (f n)).1

/-- Modelled from the spec: the Task Graph contract is_unblocked of section
4.1 — every prerequisite identifier must resolve to a known task whose status
is completed; an identifier that resolves to no task never unblocks.  Used to
state claims against the code's dependency check. -/
def depsCompleted (ts : List Task) (t : Task) : Bool :=
  t.dependencies.all fun dep =>
    match ts.find? (fun u => decide (u.id = dep)) with
    | some u => decide (u.status = TaskStatus.completed)
    | none => false

/-- Modelled from the spec: the matcher score exactly as the spec words it —
the specialization tag appears as a case-insensitive substring of the
component, and additionally of the description.  Defined only to compare with
the code's scoreAgent, which lowercases the task side only. -/
def scoreAgentSpec (agent : AuggieAgent) (task : Task) : Nat :=
  (if strIn (strLower agent.specialization) (strLower task.component) then 10 else 0) +
  (if strIn (strLower agent.specialization) (strLower task.description) then 5 else 0)

/-- C1 fixture: two non-parallel-safe tasks touching the same file, no
dependencies, and two idle agents whose specializations match one component
each. -/
def tAC1 : Task :=
  { id := "TA", description := "", component := "alpha", files := ["shared.txt"],
    dependencies := [], parallel_safe := false, estimated_effort := 1,
    status := TaskStatus.pending, assigned_agent := none, output_path := none }

def tBC1 : Task :=
  { id := "TB", description := "", component := "beta", files := ["shared.txt"],
    dependencies := [], parallel_safe := false, estimated_effort := 1,
    status := TaskStatus.pending, assigned_agent := none, output_path := none }

def a1C1 : AuggieAgent :=
  { id := "a1", name := "Alpha Agent", specialization := "alpha",
    status := "idle", current_task := none }

def a2C1 : AuggieAgent :=
  { id := "a2", name := "Beta Agent", specialization := "beta",
    status := "idle", current_task := none }

def s0C1 : OrchState := { tasks := [tAC1, tBC1], agents := [a1C1, a2C1] }

/-- C2 fixture: a task whose only prerequisite id resolves to no task in the
graph, and one idle agent. -/
def t1C2 : Task :=
  { id := "T1", description := "", component := "general", files := [],
    dependencies := ["T0"], parallel_safe := true, estimated_effort := 1,
    status := TaskStatus.pending, assigned_agent := none, output_path := none }

def agC2 : AuggieAgent :=
  { id := "a1", name := "Agent One", specialization := "general",
    status := "idle", current_task := none }

def s0C2 : OrchState := { tasks := [t1C2], agents := [agC2] }

/-- C3 fixture: two independent pending tasks and a single idle agent. -/
def t1C3 : Task :=
  { id := "T1", description := "", component := "general", files := [],
    dependencies := [], parallel_safe := true, estimated_effort := 1,
    status := TaskStatus.pending, assigned_agent := none, output_path := none }

def t2C3 : Task :=
  { id := "T2", description := "", component := "general", files := [],
    dependencies := [], parallel_safe := true, estimated_effort := 1,
    status := TaskStatus.pending, assigned_agent := none, output_path := none }

def agC3 : AuggieAgent :=
  { id := "a1", name := "Agent One", specialization := "general",
    status := "idle", current_task := none }

def s0C3 : OrchState := { tasks := [t1C3, t2C3], agents := [agC3] }

/-- C4 fixture, initial state: T1 has no prerequisites, T2 depends on T1; one
idle agent.  Running one round in which T1's worker fails reaches the stall
state below. -/
def t1C4 : Task :=
  { id := "T1", description := "", component := "general", files := [],
    dependencies := [], parallel_safe := true, estimated_effort := 1,
    status := TaskStatus.pending, assigned_agent := none, output_path := none }

def t2C4 : Task :=
  { id := "T2", description := "", component := "general", files := [],
    dependencies := ["T1"], parallel_safe := true, estimated_effort := 1,
    status := TaskStatus.pending, assigned_agent := none, output_path := none }

def agC4 : AuggieAgent :=
  { id := "a1", name := "Agent One", specialization := "general",
    status := "idle", current_task := none }

def initC4 : OrchState := { tasks := [t1C4, t2C4], agents := [agC4] }

/-- C4 fixture, stall state: T1 failed, T2 still pending with its only
prerequisite failed, the agent idle — pending work remains but nothing is
unblocked and nothing is in flight. -/
def t1C4f : Task :=
  { id := "T1", description := "", component := "general", files := [],
    dependencies := [], parallel_safe := true, estimated_effort := 1,
    status := TaskStatus.failed, assigned_agent := some "a1", output_path := none }

def stallC4 : OrchState := { tasks := [t1C4f, t2C4], agents := [agC4] }

/-- C6 fixture: one pending task and one idle agent. -/
def t1C6 : Task :=
  { id := "T1", description := "", component := "general", files := [],
    dependencies := [], parallel_safe := true, estimated_effort := 1,
    status := TaskStatus.pending, assigned_agent := none, output_path := none }

def agC6 : AuggieAgent :=
  { id := "a1", name := "Agent One", specialization := "general",
    status := "idle", current_task := none }

def s0C6 : OrchState := { tasks := [t1C6], agents := [agC6] }

/-- C8 counterexample fixture: the first agent's specialization differs from
the task's component only in letter case, the second agent's matches exactly;
under the claimed case-insensitive scoring the first agent would be the first
maximal-score idle agent. -/
def aCapC8 : AuggieAgent :=
  { id := "a1", name := "Capital", specialization := "Backend",
    status := "idle", current_task := none }

def aLowC8 : AuggieAgent :=
  { id := "a2", name := "Lower", specialization := "backend",
    status := "idle", current_task := none }

def taskC8 : Task :=
  { id := "T1", description := "", component := "backend-api", files := [],
    dependencies := [], parallel_safe := true, estimated_effort := 1,
    status := TaskStatus.pending, assigned_agent := none, output_path := none }

/-- C8 witness fixture: the spec's own example — agents specialized in
backend and frontend, a task with component backend-api. -/
def agBackC8 : AuggieAgent :=
  { id := "b", name := "Backend Specialist", specialization := "backend",
    status := "idle", current_task := none }

def agFrontC8 : AuggieAgent :=
  { id := "f", name := "Frontend Specialist", specialization := "frontend",
    status := "idle", current_task := none }

def taskW8 : Task :=
  { id := "T2", description := "", component := "backend-api", files := [],
    dependencies := [], parallel_safe := true, estimated_effort := 1,
    status := TaskStatus.pending, assigned_agent := none, output_path := none }

/-- C9 witness fixture: a completed prerequisite, a running task sharing a
file with the candidate, and the non-parallel-safe pending candidate. -/
def depC9 : Task :=
  { id := "T1", description := "", component := "general", files := [],
    dependencies := [], parallel_safe := true, estimated_effort := 1,
    status := TaskStatus.completed, assigned_agent := none, output_path := none }

def runC9 : Task :=
  { id := "T2", description := "", component := "general", files := ["f.txt"],
    dependencies := [], parallel_safe := false, estimated_effort := 1,
    status := TaskStatus.in_progress, assigned_agent := some "a1", output_path := none }

def candC9 : Task :=
  { id := "T3", description := "", component := "general", files := ["f.txt"],
    dependencies := ["T1"], parallel_safe := false, estimated_effort := 1,
    status := TaskStatus.pending, assigned_agent := none, output_path := none }

def tsC9 : List Task := [depC9, runC9, candC9]

/-- C10 counterexample fixture: an arbitrary concrete agent and task for the
execution on which the worker succeeds but the merge-back step raises. -/
def a0C10 : AuggieAgent :=
  { id := "a1", name := "Agent One", specialization := "general",
    status := "idle", current_task := some "T1" }

def t0C10 : Task :=
  { id := "T1", description := "", component := "general", files := ["f.txt"],
    dependencies := [], parallel_safe := true, estimated_effort := 1,
    status := TaskStatus.assigned, assigned_agent := some "a1", output_path := none }

/-- C10 witness fixture: a successful execution. -/
def a1C10 : AuggieAgent :=
  { id := "a2", name := "Agent Two", specialization := "general",
    status := "idle", current_task := some "T2" }

def t1C10 : Task :=
  { id := "T2", description := "", component := "general", files := [],
    dependencies := [], parallel_safe := true, estimated_effort := 1,
    status := TaskStatus.assigned, assigned_agent := some "a2", output_path := none }

/-- C1: the claim states that no two tasks with intersecting file sets are
ever simultaneously in_progress unless both are parallel-safe.  The code
violates it: the conflict check of _can_assign_task inspects only tasks
already IN_PROGRESS, so two non-parallel-safe tasks touching the same file
that are both assigned in the same round are then both launched and are
simultaneously in_progress.  Starting from s0C1 (two pending non-parallel-safe
tasks sharing shared.txt, two idle agents), after the assign phase and the
launch of the active pairs both tasks are in_progress with intersecting
non-empty file sets and neither is parallel-safe. -/
theorem c1_overlapping_tasks_simultaneously_in_progress :
    (afterLaunch s0C1).tasks.map
        (fun t => (t.id, t.status, t.parallel_safe, t.files)) =
      [("TA", TaskStatus.in_progress, false, ["shared.txt"]),
       ("TB", TaskStatus.in_progress, false, ["shared.txt"])] := by
  decide

/-- C2: the claim states that a task with an unresolvable prerequisite id is
never assigned.  The code violates it: the `if dep_id in self.tasks` guard of
_can_assign_task silently skips dependency ids absent from the graph, so the
task T1, whose only prerequisite T0 resolves to no task (the spec's
is_unblocked, depsCompleted, answers false), passes _can_assign_task and is
marked assigned in the very first assign phase. -/
theorem c2_unresolvable_prerequisite_still_assigned :
    depsCompleted s0C2.tasks t1C2 = false ∧
    canAssignTask s0C2.tasks t1C2 = true ∧
    (assignTasks s0C2).tasks.map (fun t => (t.id, t.status)) =
      [("T1", TaskStatus.assigned)] := by
  decide

/-- C3: the claim states that an agent consumed by an assignment leaves the
idle candidate pool for the rest of the round, so two tasks assigned in one
round never share an agent.  The code violates it: assign_tasks sets only
agent.current_task, never agent.status, and _find_best_agent_for_task filters
on status == "idle", so in one assign phase the single agent a1 is handed both
T1 and T2: both end assigned with assigned_agent a1, and a1.current_task is
overwritten to T2, orphaning T1. -/
theorem c3_same_agent_assigned_twice_in_one_round :
    (assignTasks s0C3).tasks.map (fun t => (t.id, t.status, t.assigned_agent)) =
      [("T1", TaskStatus.assigned, some "a1"),
       ("T2", TaskStatus.assigned, some "a1")] ∧
    (assignTasks s0C3).agents.map (fun a => (a.id, a.current_task)) =
      [("a1", some "T2")] := by
  decide

/-- C6: the claim states that at every observation point an agent has status
working exactly when its current_task is set.  The code violates it: after the
assign phase (and before execution starts) the agent holds the assigned task
in current_task while its status is still "idle", an observable state (for
example through get_status_report) in which the equivalence fails. -/
theorem c6_idle_agent_observably_holds_a_task :
    (assignTasks s0C6).agents.map (fun a => (a.status, a.current_task)) =
      [("idle", some "T1")] ∧
    (assignTasks s0C6).tasks.map (fun t => t.status) = [TaskStatus.assigned] := by
  decide

/-- C4: the claim states that a stall (pending tasks remain, none unblocked,
none in flight) makes the loop terminate and be reported as a blocked terminal
condition.  The code violates it: orchestrate's only exit tests that every
task is completed or failed, and no blocked condition is ever produced.  From
initC4 one round in which T1's worker fails reaches the stall state stallC4
(T2 pending behind the failed T1, no agent busy); from there every further
round, whatever outcomes its executions would have, returns the very same
state with the exit flag false — the loop spins forever instead of
terminating with a blocked report. -/
theorem c4_stall_loops_forever_instead_of_blocked_report :
    orchRound initC4 [ExecOutcome.workerFailure] = (stallC4, false) ∧
    (∀ (f : Nat → List ExecOutcome) (n : Nat),
      runRounds stallC4 f n = stallC4 ∧
      (orchRound (runRounds stallC4 f n) (f n)).2 = false) := by
  have hassign : assignTasks stallC4 = stallC4 := by decide
  have hactive : collectActive stallC4 = [] := by decide
  have hrem : decide (remainingTasks stallC4 = []) = false := by decide
  have hstep : ∀ outs, orchRound stallC4 outs = (stallC4, false) := by
    intro outs
    show (let s1 := assignTasks stallC4
          let pairs := collectActive s1
          let s2 := pairs.foldl launchPair s1
          let s3 := (pairs.zip outs).foldl (fun st pr => finishPair st pr.1 pr.2) s2
          (s3, decide (remainingTasks s3 = []))) = (stallC4, false)
    simp only [hassign, hactive, List.zip_nil_left, List.foldl_nil, hrem]
  refine ⟨by decide, ?_⟩
  intro f n
  induction n with
  | zero => exact ⟨rfl, by rw [runRounds, hstep]⟩
  | succ n ih =>
    have h1 : runRounds stallC4 f (n + 1) = stallC4 := by
      rw [runRounds, ih.1, hstep]
    exact ⟨h1, by rw [h1, hstep]⟩

/-- C5: a task whose execution is interrupted by the round's cancellation
(its execution was not among the first completions of the progress-wait) is
never marked failed nor reset to pending: asyncio.CancelledError derives from
BaseException, so the `except Exception` handler of execute_task does not
catch it, only the finally block runs, and the task keeps the IN_PROGRESS
status it received when it was launched.  At the scheduling-loop level,
settling a launched pair with the cancelled outcome changes no task at all. -/
theorem c5_interrupted_task_stays_in_progress (agent : AuggieAgent) (task : Task) :
    (executeTask agent task ExecOutcome.cancelled).task.status = TaskStatus.in_progress ∧
    (executeTask agent task ExecOutcome.cancelled).task.status ≠ TaskStatus.failed ∧
    (executeTask agent task ExecOutcome.cancelled).task.status ≠ TaskStatus.pending ∧
    (∀ (s : OrchState) (p : String × String),
      (finishPair s p ExecOutcome.cancelled).tasks = s.tasks) := by
  refine ⟨rfl, by simp [executeTask, execOutcomeTask], by simp [executeTask, execOutcomeTask], ?_⟩
  intro s p
  simp [finishPair, execOutcomeTask, updateTask]

/-- C7: whatever the outcome of one execute_task attempt — success, worker
failure, internal error at the worker boundary, a merge-back error or even
cancellation — the finally block unconditionally resets the agent to status
"idle" with no current task; and on a worker failure signal or an error
raised at the worker boundary the task is marked failed and the merge-back
step is never reached. -/
theorem c7_agent_always_freed_failure_marks_failed_no_merge
    (agent : AuggieAgent) (task : Task) (outcome : ExecOutcome) :
    ((executeTask agent task outcome).agent.status = "idle" ∧
     (executeTask agent task outcome).agent.current_task = none) ∧
    ((executeTask agent task ExecOutcome.workerFailure).task.status = TaskStatus.failed ∧
     (executeTask agent task ExecOutcome.workerFailure).mergeInvoked = false) ∧
    ((executeTask agent task ExecOutcome.workerRaises).task.status = TaskStatus.failed ∧
     (executeTask agent task ExecOutcome.workerRaises).mergeInvoked = false) := by
  cases outcome <;>
    simp [executeTask, execOutcomeTask, execMerge]

/-- C10 counterexample: the claim states that merge-back is invoked exactly on
the True-returning path of execute_task.  On an execution in which the worker
signals success but _merge_task_results itself raises, merge-back was invoked
and yet execute_task returns False (the except handler also overwrites the
task's status to failed), so the claimed equivalence is false. -/
theorem c10_merge_invoked_on_false_return :
    (executeTask a0C10 t0C10 ExecOutcome.mergeRaises).ret = some false ∧
    (executeTask a0C10 t0C10 ExecOutcome.mergeRaises).mergeInvoked = true ∧
    (executeTask a0C10 t0C10 ExecOutcome.mergeRaises).task.status = TaskStatus.failed := by
  decide

/-- C10 amended: execute_task returns True exactly when the task's status at
return is completed and False exactly when it is failed (a cancelled attempt
returns nothing and leaves the task in_progress), and merge-back is invoked
exactly when the worker boundary signalled success — hence on every
True-returning execution, but also on a False-returning one when the
merge-back step itself raised. -/
theorem c10_return_value_matches_final_status
    (agent : AuggieAgent) (task : Task) (outcome : ExecOutcome) :
    ((executeTask agent task outcome).ret = some true ↔
      (executeTask agent task outcome).task.status = TaskStatus.completed) ∧
    ((executeTask agent task outcome).ret = some false ↔
      (executeTask agent task outcome).task.status = TaskStatus.failed) ∧
    ((executeTask agent task outcome).mergeInvoked = true ↔
      (outcome = ExecOutcome.success ∨ outcome = ExecOutcome.mergeRaises)) ∧
    ((executeTask agent task outcome).ret = some true →
      (executeTask agent task outcome).mergeInvoked = true) := by
  cases outcome <;>
    simp [executeTask, execOutcomeTask, execRet, execMerge]

/-- C10 witness: the amended theorem applied to a concrete successful
execution. -/
theorem c10_return_value_matches_final_status_witness :
    ((executeTask a1C10 t1C10 ExecOutcome.success).ret = some true ↔
      (executeTask a1C10 t1C10 ExecOutcome.success).task.status = TaskStatus.completed) ∧
    ((executeTask a1C10 t1C10 ExecOutcome.success).ret = some true →
      (executeTask a1C10 t1C10 ExecOutcome.success).mergeInvoked = true) :=
  ⟨(c10_return_value_matches_final_status a1C10 t1C10 ExecOutcome.success).1,
   (c10_return_value_matches_final_status a1C10 t1C10 ExecOutcome.success).2.2.2⟩

/-- In a well-formed task dictionary (ids are the keys, hence pairwise
distinct) two member tasks with the same id are the same task. -/
theorem task_id_inj {ts : List Task} (hwf : (ts.map (fun u => u.id)).Nodup)
    {u v : Task} (hu : u ∈ ts) (hv : v ∈ ts) (h : u.id = v.id) : u = v :=
  List.inj_on_of_nodup_map hwf hu hv h

/-- C9: for a candidate whose prerequisites are all completed, drawn from a
well-formed task dictionary and still pending, _can_assign_task answers false
exactly when the candidate is not parallel-safe and some task currently
in_progress has a file in common with it; consequently a parallel-safe
candidate is never refused for file overlap, and a candidate with an empty
file set is never refused. -/
theorem c9_conflict_check_characterization (ts : List Task) (t : Task)
    (hdep : depsCompleted ts t = true)
    (hwf : (ts.map (fun u => u.id)).Nodup)
    (hmem : t ∈ ts) (hpend : t.status = TaskStatus.pending) :
    (canAssignTask ts t = false ↔
      (t.parallel_safe = false ∧
        ∃ u ∈ ts, u.status = TaskStatus.in_progress ∧ ∃ f ∈ t.files, f ∈ u.files)) ∧
    (t.parallel_safe = true → canAssignTask ts t = true) ∧
    (t.files = [] → canAssignTask ts t = true) := by
  have hdeps' : depsOkCode ts t = true := by
    rw [depsCompleted, List.all_eq_true] at hdep
    rw [depsOkCode, List.all_eq_true]
    intro dep hd
    have hsp := hdep dep hd
    cases hf : ts.find? (fun u => decide (u.id = dep)) with
    | none => simp
    | some u => rw [hf] at hsp; exact hsp
  have hcan : canAssignTask ts t = noConflict ts t := by
    rw [canAssignTask, hdeps', Bool.true_and]
  have hnc : noConflict ts t = false ↔
      (t.parallel_safe = false ∧
        ∃ u ∈ ts, u.status = TaskStatus.in_progress ∧ u.id ≠ t.id ∧
          ∃ f ∈ t.files, f ∈ u.files) := by
    simp [noConflict, List.all_eq_true, List.any_eq_true, not_forall, and_assoc]
  constructor
  · rw [hcan, hnc]
    constructor
    · rintro ⟨hps, u, hu, hst, _, hf⟩
      exact ⟨hps, u, hu, hst, hf⟩
    · rintro ⟨hps, u, hu, hst, hf⟩
      refine ⟨hps, u, hu, hst, ?_, hf⟩
      intro hid
      have : u = t := task_id_inj hwf hu hmem hid
      rw [this, hpend] at hst
      exact absurd hst (by simp)
  · constructor
    · intro hps
      rw [hcan, noConflict, hps, Bool.true_or]
    · intro hfiles
      rw [hcan, noConflict, Bool.or_eq_true]
      right
      rw [List.all_eq_true]
      intro u _
      simp [hfiles]

/-- C9 witness: the characterization applied to a concrete graph with a
completed prerequisite, a running task sharing f.txt with the candidate, and
the non-parallel-safe pending candidate. -/
theorem c9_conflict_check_characterization_witness :
    (canAssignTask tsC9 candC9 = false ↔
      (candC9.parallel_safe = false ∧
        ∃ u ∈ tsC9, u.status = TaskStatus.in_progress ∧
          ∃ f ∈ candC9.files, f ∈ u.files)) ∧
    (candC9.parallel_safe = true → canAssignTask tsC9 candC9 = true) ∧
    (candC9.files = [] → canAssignTask tsC9 candC9 = true) :=
  c9_conflict_check_characterization tsC9 candC9 (by decide) (by decide)
    (by decide) (by decide)

/-- pickBest returns the first element of a :: rest attaining the maximal
score: the list splits around the returned agent, every agent strictly before
it scores strictly less and every agent after it scores no more. -/
theorem pickBest_spec (task : Task) :
    ∀ (rest : List AuggieAgent) (a : AuggieAgent),
      ∃ l1 l2, a :: rest = l1 ++ pickBest task a rest :: l2 ∧
        (∀ b ∈ l1, scoreAgent b task < scoreAgent (pickBest task a rest) task) ∧
        (∀ b ∈ l2, scoreAgent b task ≤ scoreAgent (pickBest task a rest) task)
  | [], a => ⟨[], [], rfl, by simp, by simp⟩
  | x :: rs, a => by
    by_cases h : scoreAgent a task < scoreAgent x task
    · have hfold : pickBest task a (x :: rs) = pickBest task x rs := by
        show pickBest task (if scoreAgent a task < scoreAgent x task then x else a) rs
          = pickBest task x rs
        rw [if_pos h]
      obtain ⟨l1, l2, hdec, hl1, hl2⟩ := pickBest_spec task rs x
      rw [hfold]
      have hx_le : scoreAgent x task ≤ scoreAgent (pickBest task x rs) task := by
        cases l1 with
        | nil =>
          rw [List.nil_append] at hdec
          exact le_of_eq (congrArg (fun z => scoreAgent z task)
            ((List.cons.injEq _ _ _ _).mp hdec).1)
        | cons b0 l1' =>
          have hb0 : x = b0 := ((List.cons.injEq _ _ _ _).mp (by simpa using hdec)).1
          exact le_of_lt (hb0 ▸ hl1 b0 (List.mem_cons_self b0 l1'))
      refine ⟨a :: l1, l2, by rw [List.cons_append, ← hdec], ?_, hl2⟩
      intro b hb
      rcases List.mem_cons.mp hb with hb | hb
      · exact hb ▸ lt_of_lt_of_le h hx_le
      · exact hl1 b hb
    · have hfold : pickBest task a (x :: rs) = pickBest task a rs := by
        show pickBest task (if scoreAgent a task < scoreAgent x task then x else a) rs
          = pickBest task a rs
        rw [if_neg h]
      obtain ⟨l1, l2, hdec, hl1, hl2⟩ := pickBest_spec task rs a
      rw [hfold]
      cases l1 with
      | nil =>
        rw [List.nil_append] at hdec
        obtain ⟨hac, hrs⟩ := (List.cons.injEq _ _ _ _).mp hdec
        refine ⟨[], x :: l2, ?_, by simp, ?_⟩
        · rw [List.nil_append, ← hac, ← hrs]
        · intro b hb
          rcases List.mem_cons.mp hb with hb | hb
          · rw [hb, ← hac]; exact Nat.le_of_not_lt h
          · exact hl2 b hb
      | cons b0 l1' =>
        obtain ⟨hab0, hrs⟩ := (List.cons.injEq _ _ _ _).mp (by simpa using hdec)
        have ha_lt : scoreAgent a task < scoreAgent (pickBest task a rs) task :=
          hab0 ▸ hl1 b0 (List.mem_cons_self b0 l1')
        refine ⟨a :: x :: l1', l2, ?_, ?_, hl2⟩
        · rw [show (a :: x :: l1') ++ pickBest task a rs :: l2
              = a :: x :: (l1' ++ pickBest task a rs :: l2) from rfl, ← hrs]
        · intro b hb
          rcases List.mem_cons.mp hb with hb | hb
          · exact hb ▸ ha_lt
          · rcases List.mem_cons.mp hb with hb | hb
            · exact hb ▸ lt_of_le_of_lt (Nat.le_of_not_lt h) ha_lt
            · exact hl1 b (List.mem_cons_of_mem b0 hb)

/-- C8 counterexample: the claim scores case-insensitively on both sides and
selects the first maximal-score idle agent.  With agents specialized "Backend"
then "backend" and a task with component "backend-api", the claimed scoring
gives both agents 10 so the first agent must win the tie; the code scores the
specialization as written against the lowercased component, gives the first
agent 0, and selects the second agent instead. -/
theorem c8_case_sensitive_scoring_counterexample :
    scoreAgentSpec aCapC8 taskC8 = 10 ∧
    scoreAgentSpec aLowC8 taskC8 = 10 ∧
    scoreAgent aCapC8 taskC8 = 0 ∧
    scoreAgent aLowC8 taskC8 = 10 ∧
    findBestAgentForTask [aCapC8, aLowC8] taskC8 = some aLowC8 ∧
    aLowC8 ≠ aCapC8 := by
  decide

/-- C8 amended: the matcher scores each idle agent +10 when the agent's
specialization, as written, is a substring of the lowercased component, plus
an additional +5 when it is a substring of the lowercased description (so the
match is case-insensitive only with respect to the task's fields); it selects
the maximum-scoring idle agent with ties broken by registry iteration order
(first seen wins), and returns none exactly when no idle agent exists. -/
theorem c8_matcher_characterization (agents : List AuggieAgent) (task : Task) :
    (∀ ag, scoreAgent ag task =
      (if strIn ag.specialization (strLower task.component) then 10 else 0) +
      (if strIn ag.specialization (strLower task.description) then 5 else 0)) ∧
    (findBestAgentForTask agents task = none ↔
      agents.filter (fun a => a.status = "idle") = []) ∧
    (∀ c, findBestAgentForTask agents task = some c →
      ∃ l1 l2, agents.filter (fun a => a.status = "idle") = l1 ++ c :: l2 ∧
        (∀ b ∈ l1, scoreAgent b task < scoreAgent c task) ∧
        (∀ b ∈ l2, scoreAgent b task ≤ scoreAgent c task)) := by
  refine ⟨fun ag => rfl, ?_, ?_⟩
  · cases hfl : agents.filter (fun a => a.status = "idle") with
    | nil => simp [findBestAgentForTask, hfl]
    | cons a rest => simp [findBestAgentForTask, hfl]
  · intro c hc
    cases hfl : agents.filter (fun a => a.status = "idle") with
    | nil => simp [findBestAgentForTask, hfl] at hc
    | cons a rest =>
      have hc' : pickBest task a rest = c := by
        have h := hc
        simp only [findBestAgentForTask, hfl, Option.some.injEq] at h
        exact h
      obtain ⟨l1, l2, hdec, hl1, hl2⟩ := pickBest_spec task rest a
      rw [hc'] at hdec hl1 hl2
      exact ⟨l1, l2, hdec, hl1, hl2⟩

/-- C8 witness: the amended characterization applied to the spec's own
example — specializations "backend" and "frontend" against component
"backend-api"; the backend agent is selected and splits the idle pool with
the frontend agent scoring strictly less. -/
theorem c8_matcher_characterization_witness :
    ∃ l1 l2,
      [agBackC8, agFrontC8].filter (fun a => a.status = "idle") =
        l1 ++ agBackC8 :: l2 ∧
      (∀ b ∈ l1, scoreAgent b taskW8 < scoreAgent agBackC8 taskW8) ∧
      (∀ b ∈ l2, scoreAgent b taskW8 ≤ scoreAgent agBackC8 taskW8) :=
  (c8_matcher_characterization [agBackC8, agFrontC8] taskW8).2.2 agBackC8 (by decide)

end Orch
